import Mathlib

/-!
Verification development for a real-time bingo session relay.

The repository contains three server variants sharing one design:
* `Simple`  — the plain-WebSocket server (src/unnamed/part_000);
* `V1`      — the first socket.io server in src/server.ts (lines 1-352);
* `V2`      — the second socket.io server in src/server.ts (lines 352-1053).

Each variant keeps two in-memory maps (`activeGames`, players/connections) and
mutates them from single-threaded event handlers.  JavaScript `Map`s are
modelled as association lists with JS `Map.set`/`Map.delete` semantics
(update-in-place keeps the entry's position; a new key is appended).
Timestamps (`Date.now()` millis, or ISO strings that are parsed back with
`new Date(..).getTime()`) are modelled as `Nat` milliseconds passed in as a
`now` argument.  Fields that a client may omit (`undefined`) are `Option`s,
and the JS `x || d` defaulting idiom (which also replaces `""` and `0`) is
modelled by `jsOrStr` / `jsOrNat`.  Outbound `ws.send` / `emit` calls are
collected into an output list instead of performing I/O.
-/

namespace Bingo

/-- JS `x || d` for possibly-absent strings: `undefined` and `""` fall back. -/
def jsOrStr (v : Option String) (d : String) : String :=
  match v with
  | none => d
  | some s => if s = "" then d else s

/-- JS `x || d` for possibly-absent numbers: `undefined` and `0` fall back. -/
def jsOrNat (v : Option Nat) (d : Nat) : Nat :=
  match v with
  | none => d
  | some n => if n = 0 then d else n

/-- JS `Map.get`: first (only) entry for the key. -/
def mget {α : Type} : List (String × α) → String → Option α
  | [], _ => none
  | q :: rest, k => if q.1 = k then some q.2 else mget rest k

/-- JS `Map.set`: replace in place if the key exists, else append. -/
def mset {α : Type} : List (String × α) → String → α → List (String × α)
  | [], k, v => [(k, v)]
  | q :: rest, k, v => if q.1 = k then (k, v) :: rest else q :: mset rest k v

/-- JS `Map.delete`: remove the entry for the key. -/
def mdel {α : Type} : List (String × α) → String → List (String × α)
  | [], _ => []
  | q :: rest, k => if q.1 = k then mdel rest k else q :: mdel rest k

/-- Wire payload of a `call-number` event: `{gameId, number, displayText}`. -/
structure CallData where
  gameId : String
  number : Int
  displayText : Option String := none
  deriving Repr, DecidableEq

/-- Wire payload of an `announce-winner` event:
`{gameId, playerName, pattern, winAmount}`. -/
structure WinnerData where
  gameId : String
  playerName : Option String := none
  pattern : Option String := none
  winAmount : Option Int := none
  deriving Repr, DecidableEq

namespace Simple

/-- Roster entry of part_000's `GameState.players`. -/
structure Player where
  id : String
  name : String
  phone : String
  boardId : Nat
  stake : Nat
  joinedAt : Nat
  deriving Repr, DecidableEq

/-- part_000's `GameState` (note: no `host`, no `winner`, no `lastActivity`). -/
structure GameState where
  id : String
  players : List Player
  calledNumbers : List Int
  gameType : String
  status : String
  createdAt : Nat
  deriving Repr, DecidableEq

/-- part_000's `PlayerState`; the WebSocket handle is abstracted to whether
`ws.readyState === WebSocket.OPEN`. -/
structure PlayerState where
  id : String
  wsOpen : Bool
  gameId : Option String := none
  name : Option String := none
  phone : Option String := none
  deriving Repr, DecidableEq

/-- The two module-level maps of part_000. -/
structure ServerState where
  activeGames : List (String × GameState)
  activePlayers : List (String × PlayerState)
  deriving Repr, DecidableEq

/-- Outbound messages part_000 can `ws.send` (the fields each handler puts in
the JSON payload). -/
inductive Msg where
  | error (message : String)
  | gameState (gameId : String) (players : List Player) (calledNumbers : List Int)
      (gameType : String) (status : String)
  | playerJoined (playerId : String) (playerName : Option String) (totalPlayers : Nat)
      (timestamp : Nat)
  | numberCalled (number : Int) (displayText : String) (calledNumbers : List Int)
      (totalCalled : Nat) (timestamp : Nat)
  | winnerAnnounced (playerName : Option String) (pattern : Option String)
      (winAmount : Option Int) (calledNumbers : Nat) (timestamp : Nat)
  | chatMessage (playerId : String) (playerName : String) (message : String) (timestamp : Nat)
  | playerLeft (playerId : String) (playerName : Option String) (timestamp : Nat)
  deriving Repr, DecidableEq

/-- A delivered unit: destination connection id and the message sent to it. -/
abbrev Out := String × Msg

/-- One iteration of the `broadcastToGame` loop body for roster entry `p`:
deliver iff `p` has a registered socket that is OPEN and is not the excluded
id.  (The exclude test sits inside the liveness test, exactly as in the
source loop.) -/
def deliverTo (st : ServerState) (excludePlayerId : Option String) (message : Msg)
    (p : Player) : Option Out :=
  match mget st.activePlayers p.id with
  | some playerState =>
    if playerState.wsOpen then
      if excludePlayerId = some p.id then none else some (p.id, message)
    else none
  | none => none

/-- part_000 `broadcastToGame`: walk the room's roster, deliver to each member
whose registered socket is OPEN, skipping the excluded id.  Each roster entry
is handled independently (`deliverTo`), so one closed socket never affects
delivery to the others. -/
def broadcastToGame (st : ServerState) (gameId : String) (message : Msg)
    (excludePlayerId : Option String) : List Out :=
  match mget st.activeGames gameId with
  | none => []
  | some game => game.players.filterMap (deliverTo st excludePlayerId message)

/-- Wire payload of part_000's `join-game` event. -/
structure JoinData where
  gameId : String
  name : Option String := none
  phone : Option String := none
  gameType : Option String := none
  boardId : Option Nat := none
  stake : Option Nat := none
  deriving Repr, DecidableEq

/-- The roster step of part_000 `handleJoinGame`: push a new entry unless the
connection id is already present (in which case the roster is left as is). -/
def joinRoster (players : List Player) (playerId : String) (d : JoinData) (now : Nat) :
    List Player :=
  if players.any (fun p => p.id == playerId) then players
  else players ++
    [{ id := playerId, name := jsOrStr d.name "Anonymous", phone := jsOrStr d.phone "",
       boardId := jsOrNat d.boardId 1, stake := jsOrNat d.stake 25, joinedAt := now }]

/-- The game record after part_000 `handleJoinGame`: get-or-create, then the
roster step. -/
def joinGameRecord (st : ServerState) (playerId : String) (d : JoinData) (now : Nat) :
    GameState :=
  match mget st.activeGames d.gameId with
  | some g => { g with players := joinRoster g.players playerId d now }
  | none =>
    { id := d.gameId, players := joinRoster [] playerId d now, calledNumbers := [],
      gameType := jsOrStr d.gameType "75ball", status := "waiting", createdAt := now }

/-- part_000 `handleJoinGame`: update the sender's session entry, get-or-create
the game, add the player unless already present, send the game state to the
joiner and broadcast `player-joined` to the rest of the room. -/
def handleJoinGame (st : ServerState) (playerId : String) (d : JoinData) (now : Nat) :
    ServerState × List Out :=
  let activePlayers :=
    match mget st.activePlayers playerId with
    | some ps => mset st.activePlayers playerId
        { ps with gameId := some d.gameId, name := d.name, phone := d.phone }
    | none => st.activePlayers
  let game := joinGameRecord st playerId d now
  let st1 : ServerState :=
    { activeGames := mset st.activeGames d.gameId game, activePlayers := activePlayers }
  (st1,
    (playerId, Msg.gameState d.gameId game.players game.calledNumbers game.gameType game.status)
      :: broadcastToGame st1 d.gameId
           (Msg.playerJoined playerId d.name game.players.length now) (some playerId))

/-- part_000 `handleCallNumber`: unknown room replies "Game not found" to the
sender only; otherwise the raw number is appended (no host check, no cap) and
`number-called` is broadcast to the whole room. -/
def handleCallNumber (st : ServerState) (playerId : String) (d : CallData) (now : Nat) :
    ServerState × List Out :=
  match mget st.activeGames d.gameId with
  | none => (st, [(playerId, Msg.error "Game not found")])
  | some game =>
    let game := { game with calledNumbers := game.calledNumbers ++ [d.number] }
    let st1 : ServerState := { st with activeGames := mset st.activeGames d.gameId game }
    (st1, broadcastToGame st1 d.gameId
      (Msg.numberCalled d.number (jsOrStr d.displayText (toString d.number))
        game.calledNumbers game.calledNumbers.length now) none)

/-- part_000 `handleAnnounceWinner`: unknown room replies "Game not found";
otherwise only `status := "finished"` is stored (the winner details are
broadcast but not recorded in the game state). -/
def handleAnnounceWinner (st : ServerState) (playerId : String) (d : WinnerData) (now : Nat) :
    ServerState × List Out :=
  match mget st.activeGames d.gameId with
  | none => (st, [(playerId, Msg.error "Game not found")])
  | some game =>
    let game := { game with status := "finished" }
    let st1 : ServerState := { st with activeGames := mset st.activeGames d.gameId game }
    (st1, broadcastToGame st1 d.gameId
      (Msg.winnerAnnounced d.playerName d.pattern d.winAmount game.calledNumbers.length now)
      none)

/-- Wire payload of part_000's `send-chat` event. -/
structure ChatData where
  gameId : String
  message : String
  deriving Repr, DecidableEq

/-- part_000 `handleChatMessage`: if the sender has no (truthy) `gameId` in its
session, silently return; otherwise broadcast the chat message, excluding the
sender, to the room named by `data.gameId` (not necessarily the sender's own
room). -/
def handleChatMessage (st : ServerState) (playerId : String) (d : ChatData) (now : Nat) :
    ServerState × List Out :=
  match mget st.activePlayers playerId with
  | none => (st, [])
  | some playerState =>
    match playerState.gameId with
    | none => (st, [])
    | some g =>
      if g = "" then (st, [])
      else
        (st, broadcastToGame st d.gameId
          (Msg.chatMessage playerId (jsOrStr playerState.name "Anonymous") d.message now)
          (some playerId))

/-- The effect of part_000's `socket.onclose` on the games map once the
departing player's room `gid` has been found: write back the filtered roster
and — if it became empty — delete the room immediately. -/
def oncloseGames (games : List (String × GameState)) (gid pid : String) (game : GameState) :
    List (String × GameState) :=
  let game2 := { game with players := game.players.filter (fun p => p.id != pid) }
  if game2.players.isEmpty then mdel (mset games gid game2) gid
  else mset games gid game2

/-- part_000 `socket.onclose`: remove the player from its room, broadcast
`player-left` to the remaining members (computed against the state holding
the already-filtered roster), delete the room immediately if the roster
became empty, then unregister the connection. -/
def onclose (st : ServerState) (playerId : String) (now : Nat) : ServerState × List Out :=
  match mget st.activePlayers playerId with
  | none => ({ st with activePlayers := mdel st.activePlayers playerId }, [])
  | some playerState =>
    match playerState.gameId with
    | none => ({ st with activePlayers := mdel st.activePlayers playerId }, [])
    | some gid =>
      if gid = "" then ({ st with activePlayers := mdel st.activePlayers playerId }, [])
      else
        match mget st.activeGames gid with
        | none => ({ st with activePlayers := mdel st.activePlayers playerId }, [])
        | some game =>
          let game2 := { game with players := game.players.filter (fun p => p.id != playerId) }
          let st1 : ServerState := { st with activeGames := mset st.activeGames gid game2 }
          let outs := broadcastToGame st1 gid
            (Msg.playerLeft playerId playerState.name now) (some playerId)
          ({ activeGames := oncloseGames st.activeGames gid playerId game,
             activePlayers := mdel st.activePlayers playerId }, outs)

/-- part_000's `setInterval` sweep: delete every game with
`now - game.createdAt > 60 * 60 * 1000` (part_000 tracks no `lastActivity`;
the age since creation is what is checked). -/
def cleanup (st : ServerState) (now : Nat) : ServerState :=
  { st with activeGames :=
      st.activeGames.filter (fun gg => decide (now - gg.2.createdAt ≤ 3600000)) }

/-- part_000 `/api/create-game`: mint a room with an empty roster. -/
def createGame (st : ServerState) (gameId : String) (gameType : Option String) (now : Nat) :
    ServerState :=
  let g : GameState :=
    { id := gameId, players := [], calledNumbers := [],
      gameType := jsOrStr gameType "75ball", status := "waiting", createdAt := now }
  { st with activeGames := mset st.activeGames gameId g }

/-- The "room directory iff non-empty roster" invariant of the spec, for
part_000 (which has no grace window: empty rooms are deleted immediately). -/
def Inv (st : ServerState) : Prop :=
  ∀ q ∈ st.activeGames, (q : String × GameState).2.players ≠ []

/-- Repeated `call-number` events by one connection into one room. -/
def callAll (st : ServerState) (playerId gid : String) (nums : List Int) (now : Nat) :
    ServerState :=
  nums.foldl (fun s n => (handleCallNumber s playerId { gameId := gid, number := n } now).1) st

end Simple

namespace V1

/-- Client-supplied `playerData` of the socket.io servers' `join-game`. -/
structure PlayerData where
  name : Option String := none
  gameType : Option String := none
  boardId : Option Nat := none
  stake : Option Nat := none
  deriving Repr, DecidableEq

/-- Roster entry pushed by the first server.ts variant. -/
structure Player where
  id : String
  name : Option String := none
  boardId : Nat
  stake : Nat
  joinedAt : Nat
  deriving Repr, DecidableEq

/-- Element of the first variant's `calledNumbers` (objects, not raw values). -/
structure CalledNumber where
  number : Int
  displayText : Option String := none
  calledAt : Nat
  calledBy : String
  deriving Repr, DecidableEq

/-- Game record of the first server.ts variant (`host` is always set at
creation to the first joiner's socket id). -/
structure Game where
  id : String
  players : List Player
  calledNumbers : List CalledNumber
  gameType : Option String := none
  status : String
  host : String
  createdAt : Nat
  deriving Repr, DecidableEq

/-- `connectedPlayers` entry of the first variant. -/
structure ConnPlayer where
  name : Option String := none
  socketId : String
  gameId : String
  deriving Repr, DecidableEq

/-- The two module-level maps of the first server.ts variant. -/
structure ServerState where
  activeGames : List (String × Game)
  connectedPlayers : List (String × ConnPlayer)
  deriving Repr, DecidableEq

/-- Delivery targets of socket.io emits: one socket, a room minus one socket
(`socket.to(room)`), or a whole room (`io.to(room)`).  Fan-out to members is
the socket.io library's job, so emits are recorded abstractly. -/
inductive Target where
  | toSocket (socketId : String)
  | toRoomExcept (gameId : String) (socketId : String)
  | toRoom (gameId : String)
  deriving Repr, DecidableEq

/-- Messages the first variant emits (fields as in the source payloads). -/
inductive Msg where
  | playerJoined (playerId : String) (playerName : Option String) (totalPlayers : Nat)
  | gameState (gameId : String) (players : List Player) (calledNumbers : List CalledNumber)
      (gameType : Option String) (status : String)
  | numberCalled (number : Int) (displayText : Option String)
      (calledNumbers : List CalledNumber) (totalCalled : Nat)
  deriving Repr, DecidableEq

/-- An emit: target plus message. -/
abbrev Emit := Target × Msg

/-- Roster entry pushed by the first variant's `join-game`. -/
def newPlayer (socketId : String) (pd : PlayerData) (now : Nat) : Player :=
  { id := socketId, name := pd.name, boardId := jsOrNat pd.boardId 1,
    stake := jsOrNat pd.stake 25, joinedAt := now }

/-- First server.ts variant, `join-game` handler: register the session,
create the game if absent (becoming host), then push a roster entry
 unconditionally — a re-join by the same socket appends a duplicate. -/
def joinGame (st : ServerState) (socketId gameId : String) (playerData : PlayerData)
    (now : Nat) : ServerState × List Emit :=
  let connectedPlayers := mset st.connectedPlayers socketId
    { name := playerData.name, socketId := socketId, gameId := gameId }
  let game :=
    match mget st.activeGames gameId with
    | some g => g
    | none =>
      { id := gameId, players := [], calledNumbers := [], gameType := playerData.gameType,
        status := "waiting", host := socketId, createdAt := now }
  let game := { game with players := game.players ++ [newPlayer socketId playerData now] }
  let st1 : ServerState :=
    { activeGames := mset st.activeGames gameId game, connectedPlayers := connectedPlayers }
  (st1,
    [(Target.toRoomExcept gameId socketId,
        Msg.playerJoined socketId playerData.name game.players.length),
     (Target.toSocket socketId,
        Msg.gameState gameId game.players game.calledNumbers game.gameType game.status)])

/-- First server.ts variant, `call-number` handler: only
`game && game.host === socket.id` appends and broadcasts; any other caller
(and any unknown room) is a silent no-op. -/
def callNumber (st : ServerState) (socketId : String) (d : CallData) (now : Nat) :
    ServerState × List Emit :=
  match mget st.activeGames d.gameId with
  | none => (st, [])
  | some game =>
    if game.host = socketId then
      let nd : CalledNumber :=
        { number := d.number, displayText := d.displayText, calledAt := now,
          calledBy := socketId }
      let game := { game with calledNumbers := game.calledNumbers ++ [nd] }
      ({ st with activeGames := mset st.activeGames d.gameId game },
       [(Target.toRoom d.gameId,
          Msg.numberCalled d.number d.displayText game.calledNumbers
            game.calledNumbers.length)])
    else (st, [])

end V1

namespace V2

/-- Client-supplied `playerData` of the second server.ts variant. -/
structure PlayerData where
  name : Option String := none
  gameType : Option String := none
  boardId : Option Nat := none
  stake : Option Nat := none
  deriving Repr, DecidableEq

/-- Roster entry of the second variant (`joinedAt` kept on re-join,
`lastSeen` refreshed).  The JS spread also copies inert extras such as
`playerData.gameType` onto the object; those are not observable by any
handler and are omitted. -/
structure Player where
  socketId : String
  name : Option String := none
  boardId : Nat
  stake : Nat
  joinedAt : Nat
  lastSeen : Nat
  deriving Repr, DecidableEq

/-- Element of the second variant's `calledNumbers`. -/
structure CalledNumber where
  number : Int
  displayText : String
  calledAt : Nat
  calledBy : String
  deriving Repr, DecidableEq

/-- Winner record stored by the second variant's `announce-winner`. -/
structure Winner where
  playerId : String
  playerName : Option String := none
  pattern : Option String := none
  winAmount : Option Int := none
  wonAt : Nat
  deriving Repr, DecidableEq

/-- `settings` object attached by the second variant's `/api/create-game`. -/
structure Settings where
  maxPlayers : Nat
  stake : Nat
  autoStart : Bool
  deriving Repr, DecidableEq

/-- Game record of the second server.ts variant.  `host` is set only on the
join-game creation path; `/api/create-game` leaves it absent, and
`some h` with `h` a socket id is the only inhabited case. -/
structure Game where
  id : String
  players : List Player
  calledNumbers : List CalledNumber
  gameType : String
  status : String
  host : Option String := none
  createdAt : Nat
  lastActivity : Nat
  winner : Option Winner := none
  settings : Option Settings := none
  deriving Repr, DecidableEq

/-- `connectedPlayers` entry of the second variant. -/
structure ConnPlayer where
  name : Option String := none
  socketId : String
  gameId : String
  joinedAt : Nat
  deriving Repr, DecidableEq

/-- The two module-level maps of the second server.ts variant. -/
structure ServerState where
  activeGames : List (String × Game)
  connectedPlayers : List (String × ConnPlayer)
  deriving Repr, DecidableEq

/-- Delivery targets of socket.io emits (see `V1.Target`). -/
inductive Target where
  | toSocket (socketId : String)
  | toRoomExcept (gameId : String) (socketId : String)
  | toRoom (gameId : String)
  deriving Repr, DecidableEq

/-- Messages the second variant emits (fields as in the source payloads;
`game-state` sends the roster projected to name/boardId/stake/joinedAt). -/
inductive Msg where
  | playerJoined (playerId : String) (playerName : Option String) (totalPlayers : Nat)
      (timestamp : Nat)
  | gameState (gameId : String) (players : List (Option String × Nat × Nat × Nat))
      (calledNumbers : List CalledNumber) (gameType : String) (status : String)
      (host : Option String)
  | numberCalled (number : Int) (displayText : String) (calledNumbers : List CalledNumber)
      (totalCalled : Nat) (timestamp : Nat)
  | winnerAnnounced (playerName : Option String) (pattern : Option String)
      (winAmount : Option Int) (calledNumbers : Nat) (timestamp : Nat)
  | playerLeft (playerId : String) (playerName : Option String) (totalPlayers : Nat)
      (reason : String) (timestamp : Nat)
  deriving Repr, DecidableEq

/-- An emit: target plus message. -/
abbrev Emit := Target × Msg

/-- Fresh roster entry pushed by the second variant on a first join
(`boardId`/`stake` defaulted with `||`). -/
def newPlayer (socketId : String) (pd : PlayerData) (now : Nat) : Player :=
  { socketId := socketId, name := pd.name, boardId := jsOrNat pd.boardId 1,
    stake := jsOrNat pd.stake 25, joinedAt := now, lastSeen := now }

/-- Merge-update of an existing roster entry on re-join:
`{...old, ...playerData, lastSeen: now}` — supplied fields override, absent
fields keep the old value, `joinedAt` is untouched, `lastSeen` refreshed.
Note this branch spreads `playerData.boardId`/`stake` raw (no `|| default`). -/
def mergePlayer (old : Player) (pd : PlayerData) (now : Nat) : Player :=
  { old with
    name := match pd.name with | some n => some n | none => old.name,
    boardId := match pd.boardId with | some b => b | none => old.boardId,
    stake := match pd.stake with | some s => s | none => old.stake,
    lastSeen := now }

/-- The roster step of the second variant's `join-game`: `findIndex` on the
socket id, then in-place update or push. -/
def joinRoster (players : List Player) (socketId : String) (pd : PlayerData) (now : Nat) :
    List Player :=
  match players.findIdx? (fun p => p.socketId == socketId) with
  | none => players ++ [newPlayer socketId pd now]
  | some i => players.set i (mergePlayer ((players[i]?).getD (newPlayer socketId pd now)) pd now)

/-- Second server.ts variant, `join-game` handler: upsert the session entry,
create the game if absent (host := joiner), merge-update or push the roster
entry, refresh `lastActivity`, broadcast `player-joined` and send the state
snapshot to the joiner. -/
def joinGame (st : ServerState) (socketId gameId : String) (playerData : PlayerData)
    (now : Nat) : ServerState × List Emit :=
  let connectedPlayers := mset st.connectedPlayers socketId
    { name := playerData.name, socketId := socketId, gameId := gameId, joinedAt := now }
  let game :=
    match mget st.activeGames gameId with
    | some g => g
    | none =>
      { id := gameId, players := [], calledNumbers := [],
        gameType := jsOrStr playerData.gameType "75ball", status := "waiting",
        host := some socketId, createdAt := now, lastActivity := now }
  let game := { game with
      players := joinRoster game.players socketId playerData now
      lastActivity := now }
  let st1 : ServerState :=
    { activeGames := mset st.activeGames gameId game, connectedPlayers := connectedPlayers }
  (st1,
    [(Target.toRoomExcept gameId socketId,
        Msg.playerJoined socketId playerData.name game.players.length now),
     (Target.toSocket socketId,
        Msg.gameState gameId (game.players.map (fun p => (p.name, p.boardId, p.stake, p.joinedAt)))
          game.calledNumbers game.gameType game.status game.host)])

/-- Second server.ts variant, `call-number` handler: accepted when the caller
is the host or the room has no host; the entry is pushed, and once the stored
list exceeds 100 it is cut down to its last 50 entries (`slice(-50)`), so the
stored history itself is truncated.  An unknown room, or a non-host caller in
a hosted room, is a silent no-op (no reply, no broadcast, no mutation). -/
def callNumber (st : ServerState) (socketId : String) (d : CallData) (now : Nat) :
    ServerState × List Emit :=
  match mget st.activeGames d.gameId with
  | none => (st, [])
  | some game =>
    if game.host = some socketId ∨ game.host = none then
      let numberData : CalledNumber :=
        { number := d.number, displayText := jsOrStr d.displayText (toString d.number),
          calledAt := now, calledBy := socketId }
      let calledNumbers := game.calledNumbers ++ [numberData]
      let calledNumbers :=
        if calledNumbers.length > 100 then calledNumbers.drop (calledNumbers.length - 50)
        else calledNumbers
      let game := { game with calledNumbers := calledNumbers, lastActivity := now }
      ({ st with activeGames := mset st.activeGames d.gameId game },
       [(Target.toRoom d.gameId,
          Msg.numberCalled d.number (jsOrStr d.displayText (toString d.number))
            (calledNumbers.drop (calledNumbers.length - 10)) calledNumbers.length now)])
    else (st, [])

/-- Winner record built by the second variant's `announce-winner` handler:
the announcing socket's id plus the client-supplied fields. -/
def winnerRecord (socketId : String) (d : WinnerData) (now : Nat) : Winner :=
  { playerId := socketId, playerName := d.playerName, pattern := d.pattern,
    winAmount := d.winAmount, wonAt := now }

/-- Second server.ts variant, `announce-winner` handler: for any existing room
it unconditionally sets `status := "finished"`, overwrites `winner` with a
record built from the call, refreshes `lastActivity`, and broadcasts. -/
def announceWinner (st : ServerState) (socketId : String) (d : WinnerData) (now : Nat) :
    ServerState × List Emit :=
  match mget st.activeGames d.gameId with
  | none => (st, [])
  | some game =>
    let game := { game with
        status := "finished"
        winner := some (winnerRecord socketId d now)
        lastActivity := now }
    ({ st with activeGames := mset st.activeGames d.gameId game },
     [(Target.toRoom d.gameId,
        Msg.winnerAnnounced d.playerName d.pattern d.winAmount game.calledNumbers.length now)])

/-- Second server.ts variant, `disconnect` handler: filter the roster,
broadcast `player-left`, and — when the roster became empty — schedule a
deferred eviction check (the `setTimeout` for 5 minutes later), returned here
as the scheduled game id; the room itself is NOT removed yet.  Finally the
connection is unregistered. -/
def disconnect (st : ServerState) (socketId : String) (reason : String) (now : Nat) :
    ServerState × List Emit × Option String :=
  match mget st.connectedPlayers socketId with
  | none => (st, [], none)
  | some player =>
    match mget st.activeGames player.gameId with
    | none => ({ st with connectedPlayers := mdel st.connectedPlayers socketId }, [], none)
    | some game =>
      let game := { game with
          players := game.players.filter (fun p => p.socketId != socketId)
          lastActivity := now }
      let st1 : ServerState :=
        { activeGames := mset st.activeGames player.gameId game,
          connectedPlayers := mdel st.connectedPlayers socketId }
      (st1,
       [(Target.toRoomExcept player.gameId socketId,
          Msg.playerLeft socketId player.name game.players.length reason now)],
       if game.players.isEmpty then some player.gameId else none)

/-- Body of the scheduled eviction `setTimeout`: re-fetch the room and delete
it only if it is still present and still has an empty roster (a rejoin during
the grace window therefore cancels the eviction). -/
def runEviction (st : ServerState) (gameId : String) : ServerState :=
  match mget st.activeGames gameId with
  | some gameCheck =>
    if gameCheck.players.isEmpty
    then { st with activeGames := mdel st.activeGames gameId }
    else st
  | none => st

/-- Second variant's `setInterval` sweep: delete every game whose
`now - lastActivity` exceeds 2 hours, regardless of its roster. -/
def cleanup (st : ServerState) (now : Nat) : ServerState :=
  { st with activeGames :=
      st.activeGames.filter (fun gg => decide (now - gg.2.lastActivity ≤ 7200000)) }

/-- Body accepted by the second variant's `/api/create-game`. -/
structure CreateBody where
  gameType : Option String := none
  maxPlayers : Option Nat := none
  stake : Option Nat := none
  autoStart : Option Bool := none
  deriving Repr, DecidableEq

/-- Second variant's `/api/create-game`: mint a room with an empty roster, no
host, no winner, and a `settings` object (`autoStart: body.autoStart !== false`). -/
def createGame (st : ServerState) (gameId : String) (body : CreateBody) (now : Nat) :
    ServerState :=
  let s0 : Settings :=
    { maxPlayers := jsOrNat body.maxPlayers 100, stake := jsOrNat body.stake 25,
      autoStart := body.autoStart != some false }
  let g : Game :=
    { id := gameId, players := [], calledNumbers := [],
      gameType := jsOrStr body.gameType "75ball", status := "waiting",
      createdAt := now, lastActivity := now, host := none, winner := none,
      settings := some s0 }
  { st with activeGames := mset st.activeGames gameId g }

/-- Repeated `call-number` events by one connection into one room. -/
def callAll (st : ServerState) (socketId gid : String) (nums : List Int) (now : Nat) :
    ServerState :=
  nums.foldl (fun s n => (callNumber s socketId { gameId := gid, number := n } now).1) st

end V2

/-! Concrete records used to instantiate the theorems below on closed inputs. -/

/-- A part_000 roster entry for connection `pid`. -/
def exPlayerS (pid : String) : Simple.Player :=
  { id := pid, name := "Ann", phone := "", boardId := 1, stake := 25, joinedAt := 0 }

/-- A part_000 game named "g" with the given roster and creation time. -/
def exGameS (players : List Simple.Player) (createdAt : Nat) : Simple.GameState :=
  { id := "g", players := players, calledNumbers := [], gameType := "75ball",
    status := "waiting", createdAt := createdAt }

/-- A part_000 session entry with an open socket, joined to `gid`. -/
def exConnS (pid gid : String) : Simple.PlayerState :=
  { id := pid, wsOpen := true, gameId := some gid, name := some "Ann", phone := none }

/-- A first-variant game named "g" hosted by "h". -/
def exGame1 (players : List V1.Player) : V1.Game :=
  { id := "g", players := players, calledNumbers := [], gameType := none,
    status := "waiting", host := "h", createdAt := 0 }

/-- A first-variant roster entry. -/
def exPlayer1 (sid : String) : V1.Player :=
  { id := sid, name := some "Ann", boardId := 1, stake := 25, joinedAt := 0 }

/-- A second-variant game named "g" with the given host, roster and activity time. -/
def exGame2 (host : Option String) (players : List V2.Player) (lastActivity : Nat) : V2.Game :=
  { id := "g", players := players, calledNumbers := [], gameType := "75ball",
    status := "waiting", host := host, createdAt := 0, lastActivity := lastActivity }

/-- A second-variant roster entry. -/
def exPlayer2 (sid : String) : V2.Player :=
  { socketId := sid, name := some "Ann", boardId := 1, stake := 25, joinedAt := 0,
    lastSeen := 0 }

/-- A second-variant session entry joined to `gid`. -/
def exConn2 (sid gid : String) : V2.ConnPlayer :=
  { name := some "Ann", socketId := sid, gameId := gid, joinedAt := 0 }

/-! Association-list lemmas for the JS `Map` model. -/

theorem mget_mset_self {α : Type} (m : List (String × α)) (k : String) (v : α) :
    mget (mset m k v) k = some v := by
  induction m with
  | nil => simp [mget, mset]
  | cons q rest ih =>
    by_cases h : q.1 = k
    · simp [mset, h, mget]
    · simp [mset, h, mget, ih]

theorem mget_mset_ne {α : Type} (m : List (String × α)) (k kk : String) (v : α)
    (h : kk ≠ k) : mget (mset m k v) kk = mget m kk := by
  induction m with
  | nil => simp [mget, mset, Ne.symm h]
  | cons q rest ih =>
    by_cases hq : q.1 = k
    · have : q.1 ≠ kk := by rw [hq]; exact Ne.symm h
      simp [mset, hq, mget, this, Ne.symm h]
    · by_cases hk : q.1 = kk
      · simp [mset, hq, mget, hk, h]
      · simp [mset, hq, mget, hk, ih]

theorem mem_mset {α : Type} {m : List (String × α)} {k : String} {v : α} {q : String × α}
    (h : q ∈ mset m k v) : q = (k, v) ∨ q ∈ m := by
  induction m with
  | nil =>
    rw [mset] at h
    exact Or.inl (List.mem_singleton.mp h)
  | cons p rest ih =>
    by_cases hp : p.1 = k
    · rw [mset, if_pos hp] at h
      rcases List.mem_cons.mp h with h | h
      · exact Or.inl h
      · exact Or.inr (List.mem_cons_of_mem _ h)
    · rw [mset, if_neg hp] at h
      rcases List.mem_cons.mp h with h | h
      · exact Or.inr (h ▸ List.mem_cons_self _ _)
      · rcases ih h with h2 | h2
        · exact Or.inl h2
        · exact Or.inr (List.mem_cons_of_mem _ h2)

theorem mem_mdel {α : Type} {m : List (String × α)} {k : String} {q : String × α}
    (h : q ∈ mdel m k) : q ∈ m := by
  induction m with
  | nil => rw [mdel] at h; exact h
  | cons p rest ih =>
    by_cases hp : p.1 = k
    · rw [mdel, if_pos hp] at h
      exact List.mem_cons_of_mem _ (ih h)
    · rw [mdel, if_neg hp] at h
      rcases List.mem_cons.mp h with h | h
      · exact h ▸ List.mem_cons_self _ _
      · exact List.mem_cons_of_mem _ (ih h)

theorem mget_mdel_self {α : Type} (m : List (String × α)) (k : String) :
    mget (mdel m k) k = none := by
  induction m with
  | nil => simp [mdel, mget]
  | cons q rest ih =>
    by_cases h : q.1 = k
    · simp [mdel, h, ih]
    · simp [mdel, h, mget, ih]

theorem mget_mem {α : Type} {m : List (String × α)} {k : String} {v : α}
    (h : mget m k = some v) : (k, v) ∈ m := by
  induction m with
  | nil => simp [mget] at h
  | cons q rest ih =>
    by_cases hq : q.1 = k
    · rw [mget, if_pos hq] at h
      have : q = (k, v) := Prod.ext hq (Option.some.inj h)
      exact this ▸ List.mem_cons_self _ _
    · rw [mget, if_neg hq] at h
      exact List.mem_cons_of_mem _ (ih h)

theorem forall_mset {α : Type} {P : α → Prop} {m : List (String × α)} {k : String} {v : α}
    (hm : ∀ q ∈ m, P (Prod.snd q)) (hv : P v) : ∀ q ∈ mset m k v, P q.2 := by
  intro q hq
  rcases mem_mset hq with h | h
  · rw [h]; exact hv
  · exact hm q h

theorem any_true_ne_nil {α : Type} {l : List α} {p : α → Bool} (h : l.any p = true) :
    l ≠ [] := by
  cases l <;> simp_all

theorem isEmpty_false_ne_nil {α : Type} {l : List α} (h : l.isEmpty = false) : l ≠ [] := by
  cases l <;> simp_all

/-- C3: in both server.ts variants, a `call-number` event from a connection
other than the room's (set) host is a silent no-op — the server state is
unchanged and nothing is emitted: no broadcast and no error reply.
(part_000's rooms carry no host field at all, so the claim's precondition
"hostConnectionId is set" is never met there.) -/
theorem claim3_nonhost_silent_noop
    (s1 : V1.ServerState) (sid1 : String) (d1 : CallData) (g1 : V1.Game) (now1 : Nat)
    (h1 : mget s1.activeGames d1.gameId = some g1) (hh1 : g1.host ≠ sid1)
    (s2 : V2.ServerState) (sid2 hst : String) (d2 : CallData) (g2 : V2.Game) (now2 : Nat)
    (hg2 : mget s2.activeGames d2.gameId = some g2) (hh2 : g2.host = some hst)
    (hne2 : hst ≠ sid2) :
    V1.callNumber s1 sid1 d1 now1 = (s1, []) ∧ V2.callNumber s2 sid2 d2 now2 = (s2, []) := by
  constructor
  · unfold V1.callNumber
    rw [h1]
    simp [hh1]
  · unfold V2.callNumber
    rw [hg2]
    simp [hh2, hne2]

/-- C3 witness: a concrete non-host caller "z" in a room hosted by "h", in
both server.ts variants. -/
theorem claim3_witness :
    mget (⟨[("g", exGame1 [])], []⟩ : V1.ServerState).activeGames "g" = some (exGame1 [])
    ∧ (exGame1 []).host ≠ "z"
    ∧ mget (⟨[("g", exGame2 (some "h") [] 0)], []⟩ : V2.ServerState).activeGames "g"
        = some (exGame2 (some "h") [] 0)
    ∧ (exGame2 (some "h") [] 0).host = some "h"
    ∧ ("h" : String) ≠ "z"
    ∧ (V1.callNumber ⟨[("g", exGame1 [])], []⟩ "z" { gameId := "g", number := 5 } 3
        = (⟨[("g", exGame1 [])], []⟩, [])
      ∧ V2.callNumber ⟨[("g", exGame2 (some "h") [] 0)], []⟩ "z" { gameId := "g", number := 5 } 3
        = (⟨[("g", exGame2 (some "h") [] 0)], []⟩, [])) :=
  ⟨rfl, by decide, rfl, rfl, by decide,
   claim3_nonhost_silent_noop ⟨[("g", exGame1 [])], []⟩ "z" { gameId := "g", number := 5 }
     (exGame1 []) 3 rfl (by decide)
     ⟨[("g", exGame2 (some "h") [] 0)], []⟩ "z" "h" { gameId := "g", number := 5 }
     (exGame2 (some "h") [] 0) 3 rfl rfl (by decide)⟩

/-- C5 (amended): in the second server.ts variant, `announce-winner` on an
existing room always succeeds — it sets `status := "finished"` and stores the
winner record built from the call, and a second announce overwrites the
winner while the status stays `"finished"`.  In part_000, however,
`announce-winner` only sets the status: no winner record is stored in the
room state (the winner details are only broadcast). -/
theorem claim5_amended
    (s : V2.ServerState) (sid sid2 : String) (d d2 : WinnerData) (g : V2.Game) (now now2 : Nat)
    (hg : mget s.activeGames d.gameId = some g)
    (hsame : d2.gameId = d.gameId)
    (s0 : Simple.ServerState) (pid : String) (d0 : WinnerData) (g0 : Simple.GameState)
    (now0 : Nat) (hg0 : mget s0.activeGames d0.gameId = some g0) :
    mget (V2.announceWinner s sid d now).1.activeGames d.gameId =
      some { g with
             status := "finished"
             winner := some (V2.winnerRecord sid d now)
             lastActivity := now }
    ∧ mget (V2.announceWinner (V2.announceWinner s sid d now).1 sid2 d2 now2).1.activeGames
        d.gameId =
      some { g with
             status := "finished"
             winner := some (V2.winnerRecord sid2 d2 now2)
             lastActivity := now2 }
    ∧ mget (Simple.handleAnnounceWinner s0 pid d0 now0).1.activeGames d0.gameId =
      some { g0 with status := "finished" } := by
  refine ⟨?_, ?_, ?_⟩
  · simp only [V2.announceWinner, hg]
    exact mget_mset_self _ _ _
  · simp only [V2.announceWinner, hsame, hg, mget_mset_self]
  · simp only [Simple.handleAnnounceWinner, hg0]
    exact mget_mset_self _ _ _

/-- C5 counterexample: in part_000, announcing winner "Alice" and announcing
winner "Bob" on the same room yield identical resulting server states — the
room stores no winner record at all, contradicting the claim that each
announce-winner "sets the room's winner record from the announcing call". -/
theorem claim5_counterexample :
    (Simple.handleAnnounceWinner ⟨[("g", exGameS [exPlayerS "p1"] 0)], []⟩ "p1"
        { gameId := "g", playerName := some "Alice", pattern := some "row", winAmount := some 100 }
        9).1
  = (Simple.handleAnnounceWinner ⟨[("g", exGameS [exPlayerS "p1"] 0)], []⟩ "p1"
        { gameId := "g", playerName := some "Bob", pattern := some "col", winAmount := some 7 }
        9).1 := rfl

/-- C5 witness: concrete first and second announces on a hosted V2 room, and a
part_000 announce. -/
theorem claim5_witness :
    mget (⟨[("g", exGame2 (some "h") [] 0)], []⟩ : V2.ServerState).activeGames "g"
      = some (exGame2 (some "h") [] 0)
    ∧ mget (⟨[("g", exGameS [] 0)], []⟩ : Simple.ServerState).activeGames "g"
      = some (exGameS [] 0)
    ∧ mget (V2.announceWinner (⟨[("g", exGame2 (some "h") [] 0)], []⟩ : V2.ServerState) "p1"
          { gameId := "g", playerName := some "Alice" } 5).1.activeGames "g"
      = some { exGame2 (some "h") [] 0 with
               status := "finished"
               winner := some (V2.winnerRecord "p1" { gameId := "g", playerName := some "Alice" } 5)
               lastActivity := 5 } :=
  ⟨rfl, rfl,
   (claim5_amended ⟨[("g", exGame2 (some "h") [] 0)], []⟩ "p1" "p2"
      { gameId := "g", playerName := some "Alice" }
      { gameId := "g", playerName := some "Bob" } (exGame2 (some "h") [] 0) 5 6 rfl rfl
      ⟨[("g", exGameS [] 0)], []⟩ "p1" { gameId := "g" } (exGameS [] 0) 7 rfl).1⟩

/-- C6 (amended): a `call-number` whose gameId names no existing room mutates
no state in any server; part_000 replies "Game not found" to the sender only,
while both server.ts variants send no reply at all (silent drop). -/
theorem claim6_amended
    (s0 : Simple.ServerState) (pid : String) (d0 : CallData) (now0 : Nat)
    (h0 : mget s0.activeGames d0.gameId = none)
    (s2 : V2.ServerState) (sid : String) (d2 : CallData) (now2 : Nat)
    (h2 : mget s2.activeGames d2.gameId = none)
    (s1 : V1.ServerState) (sid1 : String) (d1 : CallData) (now1 : Nat)
    (h1 : mget s1.activeGames d1.gameId = none) :
    Simple.handleCallNumber s0 pid d0 now0 = (s0, [(pid, Simple.Msg.error "Game not found")])
    ∧ V2.callNumber s2 sid d2 now2 = (s2, [])
    ∧ V1.callNumber s1 sid1 d1 now1 = (s1, []) := by
  refine ⟨?_, ?_, ?_⟩
  · unfold Simple.handleCallNumber
    rw [h0]
  · unfold V2.callNumber
    rw [h2]
  · unfold V1.callNumber
    rw [h1]

/-- C6 counterexample: in the second server.ts variant, a `call-number` for the
unknown room "g" produces no reply whatsoever — the output list is empty, so
the sender does not receive the "game not found" error the claim requires
(the state is also untouched). -/
theorem claim6_counterexample :
    V2.callNumber ⟨[], []⟩ "p" { gameId := "g", number := 5 } 0 = (⟨[], []⟩, []) := rfl

/-- C6 witness: concrete unknown-room calls in all three variants, against
directories that do not contain the named room. -/
theorem claim6_witness :
    mget (⟨[], []⟩ : Simple.ServerState).activeGames "g" = none
    ∧ mget (⟨[], []⟩ : V2.ServerState).activeGames "gg" = none
    ∧ mget (⟨[("g", exGame1 [])], []⟩ : V1.ServerState).activeGames "nope" = none
    ∧ (Simple.handleCallNumber ⟨[], []⟩ "p" { gameId := "g", number := 5 } 0
        = (⟨[], []⟩, [("p", Simple.Msg.error "Game not found")])
      ∧ V2.callNumber ⟨[], []⟩ "q" { gameId := "gg", number := 6 } 1 = (⟨[], []⟩, [])
      ∧ V1.callNumber ⟨[("g", exGame1 [])], []⟩ "r" { gameId := "nope", number := 7 } 2
        = (⟨[("g", exGame1 [])], []⟩, [])) :=
  ⟨rfl, rfl, rfl,
   claim6_amended ⟨[], []⟩ "p" { gameId := "g", number := 5 } 0 rfl
     ⟨[], []⟩ "q" { gameId := "gg", number := 6 } 1 rfl
     ⟨[("g", exGame1 [])], []⟩ "r" { gameId := "nope", number := 7 } 2 rfl⟩

/-- C1 (amended): what a second join-game from a connection already in the
roster does depends on the server variant.  In the second server.ts variant
the roster entry at the connection's index is merge-updated in place
(`joinedAt` kept, `lastSeen` refreshed) and the roster length is unchanged.
In part_000 the roster — indeed the whole game record — is left completely
unchanged: no duplicate is appended, but the entry's fields are NOT updated.
In the first server.ts variant the push is unconditional, so a re-join
appends a duplicate entry and the roster grows by one. -/
theorem claim1_amended
    (s2 : V2.ServerState) (sid gid : String) (pd : V2.PlayerData) (now : Nat)
    (g2 : V2.Game) (i : Nat) (old : V2.Player)
    (hg2 : mget s2.activeGames gid = some g2)
    (hi : g2.players.findIdx? (fun p => p.socketId == sid) = some i)
    (hold : g2.players[i]? = some old)
    (s0 : Simple.ServerState) (pid : String) (d : Simple.JoinData) (now0 : Nat)
    (g0 : Simple.GameState)
    (hg0 : mget s0.activeGames d.gameId = some g0)
    (hm0 : g0.players.any (fun p => p.id == pid) = true)
    (s1 : V1.ServerState) (sid1 gid1 : String) (pd1 : V1.PlayerData) (now1 : Nat)
    (g1 : V1.Game)
    (hg1 : mget s1.activeGames gid1 = some g1) :
    ((mget (V2.joinGame s2 sid gid pd now).1.activeGames gid =
        some { g2 with
               players := g2.players.set i (V2.mergePlayer old pd now)
               lastActivity := now })
      ∧ (g2.players.set i (V2.mergePlayer old pd now)).length = g2.players.length)
    ∧ mget (Simple.handleJoinGame s0 pid d now0).1.activeGames d.gameId = some g0
    ∧ ((mget (V1.joinGame s1 sid1 gid1 pd1 now1).1.activeGames gid1 =
        some { g1 with players := g1.players ++ [V1.newPlayer sid1 pd1 now1] })
      ∧ (g1.players ++ [V1.newPlayer sid1 pd1 now1]).length = g1.players.length + 1) := by
  refine ⟨⟨?_, ?_⟩, ?_, ?_, ?_⟩
  · simp only [V2.joinGame, hg2, V2.joinRoster, hi, hold, Option.getD_some]
    exact mget_mset_self _ _ _
  · exact List.length_set _ _ _
  · have hrec : Simple.joinGameRecord s0 pid d now0 = g0 := by
      unfold Simple.joinGameRecord Simple.joinRoster
      simp [hg0, hm0]
    calc mget (Simple.handleJoinGame s0 pid d now0).1.activeGames d.gameId
        = mget (mset s0.activeGames d.gameId (Simple.joinGameRecord s0 pid d now0)) d.gameId :=
          rfl
      _ = some (Simple.joinGameRecord s0 pid d now0) := mget_mset_self _ _ _
      _ = some g0 := by rw [hrec]
  · simp only [V1.joinGame, hg1]
    exact mget_mset_self _ _ _
  · simp

/-- C1 counterexample: (a) in the first server.ts variant, "p1" joining room
"g" twice leaves a roster of length 2 — a duplicate entry is appended, so the
roster length is not unchanged; (b) in part_000, "p1" joining with name "A"
and re-joining with name "B" leaves the roster entry's name "A" — the entry's
fields are not updated in place as the claim states. -/
theorem claim1_counterexample :
    (mget (V1.joinGame (V1.joinGame ⟨[], []⟩ "p1" "g" {} 0).1 "p1" "g" {} 1).1.activeGames
        "g").map (fun g => g.players.length) = some 2
    ∧ (mget (Simple.handleJoinGame
          (Simple.handleJoinGame ⟨[], [("p1", { id := "p1", wsOpen := true })]⟩ "p1"
              { gameId := "g", name := some "A" } 0).1 "p1"
          { gameId := "g", name := some "B" } 1).1.activeGames "g").map
        (fun g => g.players.map (fun p => p.name)) = some ["A"] :=
  ⟨rfl, rfl⟩

/-- C1 witness: concrete re-joins of "p1" in all three variants. -/
theorem claim1_witness :
    (exGame2 (some "h") [exPlayer2 "p1"] 0).players.findIdx? (fun p => p.socketId == "p1")
        = some 0
    ∧ (exGameS [exPlayerS "p1"] 0).players.any (fun p => p.id == "p1") = true
    ∧ (((mget (V2.joinGame ⟨[("g", exGame2 (some "h") [exPlayer2 "p1"] 0)], []⟩ "p1" "g"
            { name := some "B" } 4).1.activeGames "g" =
          some { exGame2 (some "h") [exPlayer2 "p1"] 0 with
                 players := (exGame2 (some "h") [exPlayer2 "p1"] 0).players.set 0
                   (V2.mergePlayer (exPlayer2 "p1") { name := some "B" } 4)
                 lastActivity := 4 })
        ∧ ((exGame2 (some "h") [exPlayer2 "p1"] 0).players.set 0
             (V2.mergePlayer (exPlayer2 "p1") { name := some "B" } 4)).length
           = (exGame2 (some "h") [exPlayer2 "p1"] 0).players.length)
      ∧ mget (Simple.handleJoinGame ⟨[("g", exGameS [exPlayerS "p1"] 0)], []⟩ "p1"
            { gameId := "g", name := some "B" } 5).1.activeGames "g"
          = some (exGameS [exPlayerS "p1"] 0)
      ∧ ((mget (V1.joinGame ⟨[("g", exGame1 [exPlayer1 "p1"])], []⟩ "p1" "g"
            { name := some "B" } 6).1.activeGames "g" =
          some { exGame1 [exPlayer1 "p1"] with
                 players := (exGame1 [exPlayer1 "p1"]).players ++
                   [V1.newPlayer "p1" { name := some "B" } 6] })
        ∧ ((exGame1 [exPlayer1 "p1"]).players ++
             [V1.newPlayer "p1" { name := some "B" } 6]).length
           = (exGame1 [exPlayer1 "p1"]).players.length + 1)) :=
  ⟨rfl, rfl,
   claim1_amended ⟨[("g", exGame2 (some "h") [exPlayer2 "p1"] 0)], []⟩ "p1" "g"
     { name := some "B" } 4 (exGame2 (some "h") [exPlayer2 "p1"] 0) 0 (exPlayer2 "p1")
     rfl rfl rfl
     ⟨[("g", exGameS [exPlayerS "p1"] 0)], []⟩ "p1" { gameId := "g", name := some "B" } 5
     (exGameS [exPlayerS "p1"] 0) rfl rfl
     ⟨[("g", exGame1 [exPlayer1 "p1"])], []⟩ "p1" "g" { name := some "B" } 6
     (exGame1 [exPlayer1 "p1"]) rfl⟩

/-- C7: when a disconnect empties a room's roster, part_000 removes the room
immediately, while the second server.ts variant leaves the (now empty) room
in place and schedules a deferred eviction check for it; the eviction body
re-checks emptiness, deleting the room only if it is still empty and leaving
the state completely unchanged when a rejoin has repopulated the roster. -/
theorem claim7_grace_eviction
    (s0 : Simple.ServerState) (pid gid : String) (now : Nat) (ps : Simple.PlayerState)
    (g : Simple.GameState)
    (hps : mget s0.activePlayers pid = some ps) (hgid : ps.gameId = some gid)
    (hne : gid ≠ "") (hg : mget s0.activeGames gid = some g)
    (hemp : g.players.filter (fun p => p.id != pid) = [])
    (s2 : V2.ServerState) (sid reason : String) (now2 : Nat) (cp : V2.ConnPlayer)
    (g2 : V2.Game)
    (hcp : mget s2.connectedPlayers sid = some cp)
    (hg2 : mget s2.activeGames cp.gameId = some g2)
    (hemp2 : g2.players.filter (fun p => p.socketId != sid) = [])
    (s3 : V2.ServerState) (gid3 : String) (g3 : V2.Game)
    (hg3 : mget s3.activeGames gid3 = some g3) (hemp3 : g3.players = [])
    (s4 : V2.ServerState) (gid4 : String) (g4 : V2.Game)
    (hg4 : mget s4.activeGames gid4 = some g4) (hne4 : g4.players ≠ []) :
    mget (Simple.onclose s0 pid now).1.activeGames gid = none
    ∧ (V2.disconnect s2 sid reason now2).2.2 = some cp.gameId
    ∧ mget (V2.disconnect s2 sid reason now2).1.activeGames cp.gameId =
        some { g2 with players := [], lastActivity := now2 }
    ∧ mget (V2.runEviction s3 gid3).activeGames gid3 = none
    ∧ V2.runEviction s4 gid4 = s4 := by
  refine ⟨?_, ?_, ?_, ?_, ?_⟩
  · simp [Simple.onclose, Simple.oncloseGames, hps, hgid, hne, hg, hemp, mget_mdel_self]
  · simp [V2.disconnect, hcp, hg2, hemp2]
  · simp [V2.disconnect, hcp, hg2, hemp2, mget_mset_self]
  · simp [V2.runEviction, hg3, hemp3, mget_mdel_self]
  · cases hp : g4.players with
    | nil => exact absurd hp hne4
    | cons a l => simp [V2.runEviction, hg4, hp]

/-- C7 witness: "p1" is the last player of room "g" in both servers; a V2 room
that stayed empty is evicted by the deferred check, while a repopulated one is
kept untouched. -/
theorem claim7_witness :
    mget (⟨[("g", exGameS [exPlayerS "p1"] 0)], [("p1", exConnS "p1" "g")]⟩ :
        Simple.ServerState).activePlayers "p1" = some (exConnS "p1" "g")
    ∧ (exConnS "p1" "g").gameId = some "g"
    ∧ (exGameS [exPlayerS "p1"] 0).players.filter (fun p => p.id != "p1") = []
    ∧ mget (⟨[("g", exGame2 (some "h") [exPlayer2 "p1"] 0)], [("p1", exConn2 "p1" "g")]⟩ :
        V2.ServerState).connectedPlayers "p1" = some (exConn2 "p1" "g")
    ∧ (exGame2 none [exPlayer2 "p2"] 0).players ≠ []
    ∧ (mget (Simple.onclose ⟨[("g", exGameS [exPlayerS "p1"] 0)], [("p1", exConnS "p1" "g")]⟩
          "p1" 9).1.activeGames "g" = none
      ∧ (V2.disconnect ⟨[("g", exGame2 (some "h") [exPlayer2 "p1"] 0)],
            [("p1", exConn2 "p1" "g")]⟩ "p1" "transport close" 9).2.2
          = some (exConn2 "p1" "g").gameId
      ∧ mget (V2.disconnect ⟨[("g", exGame2 (some "h") [exPlayer2 "p1"] 0)],
            [("p1", exConn2 "p1" "g")]⟩ "p1" "transport close" 9).1.activeGames
            (exConn2 "p1" "g").gameId
          = some { exGame2 (some "h") [exPlayer2 "p1"] 0 with players := [], lastActivity := 9 }
      ∧ mget (V2.runEviction ⟨[("g", exGame2 none [] 0)], []⟩ "g").activeGames "g" = none
      ∧ V2.runEviction ⟨[("g", exGame2 none [exPlayer2 "p2"] 0)], []⟩ "g"
          = ⟨[("g", exGame2 none [exPlayer2 "p2"] 0)], []⟩) :=
  ⟨rfl, rfl, rfl, rfl, by decide,
   claim7_grace_eviction
     ⟨[("g", exGameS [exPlayerS "p1"] 0)], [("p1", exConnS "p1" "g")]⟩ "p1" "g" 9
     (exConnS "p1" "g") (exGameS [exPlayerS "p1"] 0) rfl rfl (by decide) rfl rfl
     ⟨[("g", exGame2 (some "h") [exPlayer2 "p1"] 0)], [("p1", exConn2 "p1" "g")]⟩
     "p1" "transport close" 9 (exConn2 "p1" "g") (exGame2 (some "h") [exPlayer2 "p1"] 0)
     rfl rfl rfl
     ⟨[("g", exGame2 none [] 0)], []⟩ "g" (exGame2 none [] 0) rfl rfl
     ⟨[("g", exGame2 none [exPlayer2 "p2"] 0)], []⟩ "g" (exGame2 none [exPlayer2 "p2"] 0)
     rfl (by decide)⟩

/-- C8 (amended): one execution of the periodic sweep keeps exactly the rooms
that pass the variant's own freshness test, regardless of roster size: the
second server.ts variant keeps a room iff `now - lastActivity ≤ 2h` (so truly
idle rooms are removed even with players listed, and fresh `lastActivity`
protects a room), while part_000 keeps a room iff `now - createdAt ≤ 1h` —
age since creation, so recent activity does NOT protect a room there. -/
theorem claim8_amended
    (s2 : V2.ServerState) (now2 : Nat) (gid2 : String) (g2 : V2.Game)
    (s0 : Simple.ServerState) (now0 : Nat) (gid0 : String) (g0 : Simple.GameState) :
    ((gid2, g2) ∈ (V2.cleanup s2 now2).activeGames ↔
      (gid2, g2) ∈ s2.activeGames ∧ now2 - g2.lastActivity ≤ 7200000)
    ∧ ((gid0, g0) ∈ (Simple.cleanup s0 now0).activeGames ↔
      (gid0, g0) ∈ s0.activeGames ∧ now0 - g0.createdAt ≤ 3600000) := by
  constructor
  · simp [V2.cleanup, List.mem_filter]
  · simp [Simple.cleanup, List.mem_filter]

/-- C8 counterexample: in part_000, room "g" (created at time 0, non-empty
roster) has a number called at time 3600000, i.e. 1 ms before the sweep runs
at 3600001 — activity well within the 1-hour threshold — yet the sweep
removes the room, because part_000 keys the check on `createdAt`, not on
activity.  This contradicts "does not remove any room whose activity is
within the threshold". -/
theorem claim8_counterexample :
    (mget ((Simple.handleCallNumber
        (Simple.handleJoinGame ⟨[], []⟩ "p1" { gameId := "g" } 0).1 "p1"
        { gameId := "g", number := 7 } 3600000).1).activeGames "g").map
      (fun g => g.calledNumbers) = some [7]
    ∧ 3600001 - 3600000 ≤ 3600000
    ∧ mget (Simple.cleanup
        (Simple.handleCallNumber
          (Simple.handleJoinGame ⟨[], []⟩ "p1" { gameId := "g" } 0).1 "p1"
          { gameId := "g", number := 7 } 3600000).1 3600001).activeGames "g" = none :=
  ⟨rfl, by decide, rfl⟩

/-- Helper for C9: what one loop iteration of `broadcastToGame` can produce —
a delivery goes only to the entry's own id and only when that id is not the
excluded one. -/
theorem deliverTo_some {st : Simple.ServerState} {ex : Option String} {msg : Simple.Msg}
    {p : Simple.Player} {q : Simple.Out} (h : Simple.deliverTo st ex msg p = some q) :
    q = (p.id, msg) ∧ ex ≠ some p.id := by
  unfold Simple.deliverTo at h
  split at h
  next =>
    split at h
    next =>
      split at h
      next => exact absurd h (by simp)
      next hx => exact ⟨(Option.some.inj h).symm, hx⟩
    next => exact absurd h (by simp)
  next => exact absurd h (by simp)

/-- Helper for C9: a roster entry with a registered OPEN socket that is not
excluded is delivered to, independently of every other entry's state. -/
theorem deliverTo_eq {st : Simple.ServerState} {ps : Simple.PlayerState} {msg : Simple.Msg}
    {p : Simple.Player} {ex : String} (hps : mget st.activePlayers p.id = some ps)
    (hw : ps.wsOpen = true) (hx : p.id ≠ ex) :
    Simple.deliverTo st (some ex) msg p = some (p.id, msg) := by
  simp only [Simple.deliverTo, hps]
  rw [if_pos hw, if_neg (fun he => hx (Option.some.inj he).symm)]

/-- C9: part_000's `broadcastToGame` with an excluded connection never
delivers to the excluded id, and delivers to every roster member whose
registered socket is OPEN and who is not excluded — regardless of the state
of the other members' sockets (closed or unregistered entries are skipped
individually and do not affect the rest). -/
theorem claim9_broadcast
    (s : Simple.ServerState) (gid : String) (msg : Simple.Msg) (ex : String)
    (g : Simple.GameState) (p : Simple.Player) (ps : Simple.PlayerState) :
    (∀ q ∈ Simple.broadcastToGame s gid msg (some ex), q.1 ≠ ex)
    ∧ (mget s.activeGames gid = some g → p ∈ g.players → p.id ≠ ex →
       mget s.activePlayers p.id = some ps → ps.wsOpen = true →
       (p.id, msg) ∈ Simple.broadcastToGame s gid msg (some ex)) := by
  constructor
  · intro q hq
    unfold Simple.broadcastToGame at hq
    cases hg : mget s.activeGames gid with
    | none => rw [hg] at hq; exact absurd hq (by simp)
    | some game =>
      rw [hg] at hq
      rcases List.mem_filterMap.mp hq with ⟨a, _, hfa⟩
      rcases deliverTo_some hfa with ⟨hq1, hq2⟩
      rw [hq1]
      exact fun he => hq2 (congrArg some he.symm)
  · intro hg hp hx hps hw
    unfold Simple.broadcastToGame
    rw [hg]
    exact List.mem_filterMap.mpr ⟨p, hp, deliverTo_eq hps hw hx⟩

/-- C9 witness: room "g" with roster [p1, p2, p3]; p2's socket is closed, "p1"
is excluded, and p3 still receives the message. -/
theorem claim9_witness :
    mget (⟨[("g", exGameS [exPlayerS "p1", exPlayerS "p2", exPlayerS "p3"] 0)],
        [("p1", exConnS "p1" "g"), ("p2", { exConnS "p2" "g" with wsOpen := false }),
         ("p3", exConnS "p3" "g")]⟩ : Simple.ServerState).activeGames "g"
      = some (exGameS [exPlayerS "p1", exPlayerS "p2", exPlayerS "p3"] 0)
    ∧ exPlayerS "p3" ∈ (exGameS [exPlayerS "p1", exPlayerS "p2", exPlayerS "p3"] 0).players
    ∧ (exConnS "p3" "g").wsOpen = true
    ∧ (∀ q ∈ Simple.broadcastToGame
          ⟨[("g", exGameS [exPlayerS "p1", exPlayerS "p2", exPlayerS "p3"] 0)],
           [("p1", exConnS "p1" "g"), ("p2", { exConnS "p2" "g" with wsOpen := false }),
            ("p3", exConnS "p3" "g")]⟩ "g" (Simple.Msg.error "hello") (some "p1"),
        q.1 ≠ "p1")
    ∧ ((exPlayerS "p3").id, Simple.Msg.error "hello") ∈ Simple.broadcastToGame
          ⟨[("g", exGameS [exPlayerS "p1", exPlayerS "p2", exPlayerS "p3"] 0)],
           [("p1", exConnS "p1" "g"), ("p2", { exConnS "p2" "g" with wsOpen := false }),
            ("p3", exConnS "p3" "g")]⟩ "g" (Simple.Msg.error "hello") (some "p1") := by
  have h := claim9_broadcast
    ⟨[("g", exGameS [exPlayerS "p1", exPlayerS "p2", exPlayerS "p3"] 0)],
     [("p1", exConnS "p1" "g"), ("p2", { exConnS "p2" "g" with wsOpen := false }),
      ("p3", exConnS "p3" "g")]⟩ "g" (Simple.Msg.error "hello") "p1"
    (exGameS [exPlayerS "p1", exPlayerS "p2", exPlayerS "p3"] 0) (exPlayerS "p3")
    (exConnS "p3" "g")
  exact ⟨rfl, by decide, rfl, h.1, h.2 rfl (by decide) (by decide) rfl rfl⟩

/-- C10: part_000's `send-chat` is silently ignored (no state change, no
output at all) when the sender is unregistered or has no joined game; when
the sender has joined some room, the chat is broadcast — sender excluded — to
the room named by the message's own `gameId` field, which is used as-is and
need not equal the room the sender actually joined. -/
theorem claim10_chat
    (sa : Simple.ServerState) (pa : String) (da : Simple.ChatData) (na : Nat)
    (ha : mget sa.activePlayers pa = none)
    (sb : Simple.ServerState) (pb : String) (db : Simple.ChatData) (nb : Nat)
    (psb : Simple.PlayerState)
    (hb : mget sb.activePlayers pb = some psb) (hbg : psb.gameId = none)
    (s : Simple.ServerState) (pid : String) (d : Simple.ChatData) (now : Nat)
    (ps : Simple.PlayerState) (gj : String)
    (hs : mget s.activePlayers pid = some ps) (hg : ps.gameId = some gj) (hne : gj ≠ "") :
    Simple.handleChatMessage sa pa da na = (sa, [])
    ∧ Simple.handleChatMessage sb pb db nb = (sb, [])
    ∧ Simple.handleChatMessage s pid d now =
        (s, Simple.broadcastToGame s d.gameId
              (Simple.Msg.chatMessage pid (jsOrStr ps.name "Anonymous") d.message now)
              (some pid)) := by
  refine ⟨?_, ?_, ?_⟩
  · simp [Simple.handleChatMessage, ha]
  · simp [Simple.handleChatMessage, hb, hbg]
  · simp [Simple.handleChatMessage, hs, hg, hne]

/-- C10 witness: "p" joined room "g1" but sends a chat carrying gameId "g2";
the message is delivered to "q", the member of room "g2", not to anyone in
"g1". -/
theorem claim10_witness :
    mget (⟨[("g2", exGameS [exPlayerS "q"] 0)],
        [("p", exConnS "p" "g1"), ("q", exConnS "q" "g2")]⟩ :
        Simple.ServerState).activePlayers "p" = some (exConnS "p" "g1")
    ∧ (exConnS "p" "g1").gameId = some "g1"
    ∧ ("g1" : String) ≠ ""
    ∧ Simple.handleChatMessage
        ⟨[("g2", exGameS [exPlayerS "q"] 0)],
         [("p", exConnS "p" "g1"), ("q", exConnS "q" "g2")]⟩ "p"
        { gameId := "g2", message := "hi" } 3 =
        (⟨[("g2", exGameS [exPlayerS "q"] 0)],
          [("p", exConnS "p" "g1"), ("q", exConnS "q" "g2")]⟩,
         Simple.broadcastToGame
           ⟨[("g2", exGameS [exPlayerS "q"] 0)],
            [("p", exConnS "p" "g1"), ("q", exConnS "q" "g2")]⟩ "g2"
           (Simple.Msg.chatMessage "p" (jsOrStr (exConnS "p" "g1").name "Anonymous") "hi" 3)
           (some "p"))
    ∧ Simple.broadcastToGame
        ⟨[("g2", exGameS [exPlayerS "q"] 0)],
         [("p", exConnS "p" "g1"), ("q", exConnS "q" "g2")]⟩ "g2"
        (Simple.Msg.chatMessage "p" (jsOrStr (exConnS "p" "g1").name "Anonymous") "hi" 3)
        (some "p")
      = [("q", Simple.Msg.chatMessage "p" "Ann" "hi" 3)] :=
  ⟨rfl, rfl, by decide,
   (claim10_chat ⟨[], []⟩ "x" { gameId := "g", message := "m" } 0 rfl
      ⟨[], [("y", { id := "y", wsOpen := true })]⟩ "y" { gameId := "g", message := "m" } 0
      { id := "y", wsOpen := true } rfl rfl
      ⟨[("g2", exGameS [exPlayerS "q"] 0)],
       [("p", exConnS "p" "g1"), ("q", exConnS "q" "g2")]⟩ "p"
      { gameId := "g2", message := "hi" } 3 (exConnS "p" "g1") "g1" rfl rfl
      (by decide)).2.2,
   rfl⟩

/-- Helper for C2: as long as the second variant's stored history stays within
the 100-entry cap, a run of authorized host calls appends exactly the
submitted records in order (and preserves the host). -/
theorem V2.callAll_numbers_hosted (s : V2.ServerState) (h gid : String) (g : V2.Game)
    (nums : List Int) (now : Nat)
    (hg : mget s.activeGames gid = some g) (hh : g.host = some h)
    (hlen : g.calledNumbers.length + nums.length ≤ 100) :
    ∃ g2, mget (V2.callAll s h gid nums now).activeGames gid = some g2
      ∧ g2.host = some h
      ∧ g2.calledNumbers = g.calledNumbers ++ nums.map (fun n =>
          { number := n, displayText := toString n, calledAt := now, calledBy := h }) := by
  induction nums generalizing s g with
  | nil => exact ⟨g, hg, hh, by simp⟩
  | cons n ns ih =>
    rw [List.length_cons] at hlen
    have hmg : mget (V2.callNumber s h { gameId := gid, number := n } now).1.activeGames gid
        = some { g with
                 calledNumbers := g.calledNumbers ++
                   [{ number := n, displayText := toString n, calledAt := now, calledBy := h }]
                 lastActivity := now } := by
      simp only [V2.callNumber, hg, jsOrStr]
      rw [if_pos (Or.inl (by rw [hh]))]
      rw [if_neg (by rw [List.length_append]; simp; omega)]
      exact mget_mset_self _ _ _
    obtain ⟨g2, hmem, hhost, hcn⟩ := ih _ _ hmg hh
      (by rw [List.length_append]; simp; omega)
    refine ⟨g2, hmem, hhost, ?_⟩
    rw [hcn]
    simp

/-- Helper for C2: part_000 appends every submitted raw number, with no cap at
all. -/
theorem Simple.callAll_numbers_uncapped (s : Simple.ServerState) (pid gid : String)
    (g : Simple.GameState) (nums : List Int) (now : Nat)
    (hg : mget s.activeGames gid = some g) :
    ∃ g2, mget (Simple.callAll s pid gid nums now).activeGames gid = some g2
      ∧ g2.calledNumbers = g.calledNumbers ++ nums := by
  induction nums generalizing s g with
  | nil => exact ⟨g, hg, by simp⟩
  | cons n ns ih =>
    have hmg : mget (Simple.handleCallNumber s pid
          { gameId := gid, number := n } now).1.activeGames gid
        = some { g with calledNumbers := g.calledNumbers ++ [n] } := by
      simp only [Simple.handleCallNumber, hg]
      exact mget_mset_self _ _ _
    obtain ⟨g2, hmem, hcn⟩ := ih _ _ hmg
    refine ⟨g2, hmem, ?_⟩
    rw [hcn]
    simp

/-- Helper for C2: projecting the appended records back to their numbers
recovers the submitted sequence. -/
theorem map_number_mk (h : String) (now : Nat) (nums : List Int) :
    ((nums.map (fun n =>
        ({ number := n, displayText := toString n, calledAt := now, calledBy := h } :
          V2.CalledNumber))).map (fun c => c.number)) = nums := by
  induction nums with
  | nil => rfl
  | cons a l ih => simpa using ih

/-- C2 (amended): after N call-number events with distinct values all issued
by the room's host, the stored `calledNumbers` has length N in submission
order PROVIDED N ≤ 100.  In the second server.ts variant the stored history
itself is truncated once a push takes it past 100 entries (`slice(-50)` keeps
only the most recent 50), so the server-side history is not append-only
beyond the cap; part_000 stores every submitted value with no cap. -/
theorem claim2_amended
    (s : V2.ServerState) (h gid : String) (g : V2.Game) (nums : List Int) (now : Nat)
    (hg : mget s.activeGames gid = some g) (hh : g.host = some h)
    (hcn : g.calledNumbers = []) (hlen : nums.length ≤ 100)
    (s0 : Simple.ServerState) (pid gid0 : String) (g0 : Simple.GameState)
    (nums0 : List Int) (now0 : Nat)
    (hg0 : mget s0.activeGames gid0 = some g0) (hcn0 : g0.calledNumbers = []) :
    (mget (V2.callAll s h gid nums now).activeGames gid).map
        (fun gm => gm.calledNumbers.map (fun c => c.number)) = some nums
    ∧ (mget (Simple.callAll s0 pid gid0 nums0 now0).activeGames gid0).map
        (fun gm => gm.calledNumbers) = some nums0 := by
  constructor
  · obtain ⟨g2, hmem, _, hcn2⟩ := V2.callAll_numbers_hosted s h gid g nums now hg hh
      (by rw [hcn]; simpa using hlen)
    rw [hmem]
    show some (g2.calledNumbers.map (fun c => c.number)) = some nums
    rw [hcn2, hcn]
    simpa using map_number_mk h now nums
  · obtain ⟨g2, hmem, hcn2⟩ := Simple.callAll_numbers_uncapped s0 pid gid0 g0 nums0 now0 hg0
    rw [hmem]
    show some g2.calledNumbers = some nums0
    rw [hcn2, hcn0]
    simp

set_option maxRecDepth 10000

/-- C2 counterexample: the host "h" submits the 101 distinct values 0..100 to
room "g" of the second server.ts variant; the claim requires the stored
history to have length 101, but the stored `calledNumbers` ends up with
length 50 — the push that crossed 100 entries truncated the authoritative
server-side history itself to its last 50 records. -/
theorem claim2_counterexample :
    (mget (V2.callAll ⟨[("g", exGame2 (some "h") [] 0)], []⟩ "h" "g"
        ((List.range 101).map Int.ofNat) 7).activeGames "g").map
      (fun gm => gm.calledNumbers.length) = some 50
    ∧ (50 : Nat) ≠ 101 := by
  constructor
  · rfl
  · decide

/-- C2 witness: the host calls [3, 1, 2] in a V2 room and a part_000 caller
calls [5, 4]; both histories match the submission sequence exactly. -/
theorem claim2_witness :
    mget (⟨[("g", exGame2 (some "h") [] 0)], []⟩ : V2.ServerState).activeGames "g"
      = some (exGame2 (some "h") [] 0)
    ∧ (exGame2 (some "h") [] 0).host = some "h"
    ∧ (exGame2 (some "h") [] 0).calledNumbers = []
    ∧ ([3, 1, 2] : List Int).length ≤ 100
    ∧ ((mget (V2.callAll ⟨[("g", exGame2 (some "h") [] 0)], []⟩ "h" "g"
          [3, 1, 2] 5).activeGames "g").map
        (fun gm => gm.calledNumbers.map (fun c => c.number)) = some [3, 1, 2]
      ∧ (mget (Simple.callAll ⟨[("g", exGameS [] 0)], []⟩ "p" "g" [5, 4] 6).activeGames
          "g").map (fun gm => gm.calledNumbers) = some [5, 4]) :=
  ⟨rfl, rfl, rfl, by decide,
   claim2_amended ⟨[("g", exGame2 (some "h") [] 0)], []⟩ "h" "g" (exGame2 (some "h") [] 0)
     [3, 1, 2] 5 rfl rfl rfl (by decide)
     ⟨[("g", exGameS [] 0)], []⟩ "p" "g" (exGameS [] 0) [5, 4] 6 rfl rfl⟩

/-- Helper for C4: `mdel` never keeps an entry under the deleted key. -/
theorem mem_mdel_ne {α : Type} {m : List (String × α)} {k : String} {q : String × α}
    (h : q ∈ mdel m k) : q.1 ≠ k := by
  induction m with
  | nil => rw [mdel] at h; exact absurd h (List.not_mem_nil q)
  | cons p rest ih =>
    by_cases hp : p.1 = k
    · rw [mdel, if_pos hp] at h
      exact ih h
    · rw [mdel, if_neg hp] at h
      rcases List.mem_cons.mp h with he | he
      · rw [he]; exact hp
      · exact ih he

/-- Helper for C4: part_000's join step always yields a non-empty roster. -/
theorem Simple.joinRoster_ne_nil (players : List Simple.Player) (pid : String)
    (d : Simple.JoinData) (now : Nat) : Simple.joinRoster players pid d now ≠ [] := by
  unfold Simple.joinRoster
  by_cases hany : players.any (fun p => p.id == pid) = true
  · rw [if_pos hany]
    exact any_true_ne_nil hany
  · rw [if_neg hany]
    simp

/-- Helper for C4: the games-map effect of a disconnect keeps every remaining
room non-empty (the room whose roster emptied is deleted on the spot). -/
theorem Simple.forall_oncloseGames {games : List (String × Simple.GameState)}
    {gid pid : String} {game : Simple.GameState}
    (hm : ∀ q ∈ games, (q : String × Simple.GameState).2.players ≠ []) :
    ∀ q ∈ Simple.oncloseGames games gid pid game, q.2.players ≠ [] := by
  intro q hq
  simp only [Simple.oncloseGames] at hq
  split at hq
  next hcond =>
    have hne := mem_mdel_ne hq
    rcases mem_mset (mem_mdel hq) with he | he
    · exact absurd (congrArg Prod.fst he) hne
    · exact hm q he
  next hcond =>
    rcases mem_mset hq with he | he
    · rw [he]
      intro hn
      exact hcond (congrArg List.isEmpty hn)
    · exact hm q he

/-- Helper for C4: join-game preserves the non-empty-roster invariant. -/
theorem Simple.inv_joinGame (s : Simple.ServerState) (pid : String) (d : Simple.JoinData)
    (now : Nat) (hInv : Simple.Inv s) : Simple.Inv (Simple.handleJoinGame s pid d now).1 := by
  intro q hq
  have hq2 : q ∈ mset s.activeGames d.gameId (Simple.joinGameRecord s pid d now) := hq
  rcases mem_mset hq2 with he | he
  · rw [he]
    show (Simple.joinGameRecord s pid d now).players ≠ []
    unfold Simple.joinGameRecord
    cases hg : mget s.activeGames d.gameId with
    | some g =>
      simp only [hg]
      exact Simple.joinRoster_ne_nil g.players pid d now
    | none =>
      simp only [hg]
      exact Simple.joinRoster_ne_nil [] pid d now
  · exact hInv q he

/-- Helper for C4: disconnect preserves the non-empty-roster invariant. -/
theorem Simple.inv_onclose (s : Simple.ServerState) (pid : String) (now : Nat)
    (hInv : Simple.Inv s) : Simple.Inv (Simple.onclose s pid now).1 := by
  unfold Simple.onclose
  split
  next => exact fun q hq => hInv q hq
  next ps hps =>
    split
    next => exact fun q hq => hInv q hq
    next gid hgid =>
      split
      next => exact fun q hq => hInv q hq
      next hne =>
        split
        next => exact fun q hq => hInv q hq
        next game hg => exact fun q hq => Simple.forall_oncloseGames hInv q hq

/-- Helper for C4: call-number preserves the non-empty-roster invariant. -/
theorem Simple.inv_callNumber (s : Simple.ServerState) (pid : String) (d : CallData)
    (now : Nat) (hInv : Simple.Inv s) : Simple.Inv (Simple.handleCallNumber s pid d now).1 := by
  unfold Simple.handleCallNumber
  split
  next => exact fun q hq => hInv q hq
  next game hg =>
    intro q hq
    have hq2 : q ∈ mset s.activeGames d.gameId
        { game with calledNumbers := game.calledNumbers ++ [d.number] } := hq
    rcases mem_mset hq2 with he | he
    · rw [he]
      exact hInv (d.gameId, game) (mget_mem hg)
    · exact hInv q he

/-- Helper for C4: announce-winner preserves the non-empty-roster invariant. -/
theorem Simple.inv_announceWinner (s : Simple.ServerState) (pid : String) (d : WinnerData)
    (now : Nat) (hInv : Simple.Inv s) :
    Simple.Inv (Simple.handleAnnounceWinner s pid d now).1 := by
  unfold Simple.handleAnnounceWinner
  split
  next => exact fun q hq => hInv q hq
  next game hg =>
    intro q hq
    have hq2 : q ∈ mset s.activeGames d.gameId { game with status := "finished" } := hq
    rcases mem_mset hq2 with he | he
    · rw [he]
      exact hInv (d.gameId, game) (mget_mem hg)
    · exact hInv q he

/-- Helper for C4: send-chat never touches the state at all. -/
theorem Simple.inv_chatMessage (s : Simple.ServerState) (pid : String) (d : Simple.ChatData)
    (now : Nat) (hInv : Simple.Inv s) : Simple.Inv (Simple.handleChatMessage s pid d now).1 := by
  unfold Simple.handleChatMessage
  split
  next => exact fun q hq => hInv q hq
  next ps hps =>
    split
    next => exact fun q hq => hInv q hq
    next g hgid =>
      split
      next => exact fun q hq => hInv q hq
      next => exact fun q hq => hInv q hq

/-- Helper for C4: the idle sweep only deletes, so it preserves the invariant. -/
theorem Simple.inv_cleanup (s : Simple.ServerState) (now : Nat) (hInv : Simple.Inv s) :
    Simple.Inv (Simple.cleanup s now) := by
  intro q hq
  have hq2 : q ∈ s.activeGames.filter (fun gg => decide (now - gg.2.createdAt ≤ 3600000)) := hq
  exact hInv q (List.mem_filter.mp hq2).1

/-- C4 (amended): in part_000 — where empty rooms are deleted immediately and
no grace window exists — the invariant "every room in the directory has a
non-empty roster" is preserved by every socket event handler (join-game,
disconnect, call-number, announce-winner, send-chat) and by the periodic idle
sweep.  The create-room entry point is the exception the original claim
missed: it inserts a room with an empty roster (see the counterexample). -/
theorem claim4_amended
    (s : Simple.ServerState) (pid : String) (jd : Simple.JoinData) (cd : CallData)
    (wd : WinnerData) (chd : Simple.ChatData) (now : Nat) (hInv : Simple.Inv s) :
    Simple.Inv (Simple.handleJoinGame s pid jd now).1
    ∧ Simple.Inv (Simple.onclose s pid now).1
    ∧ Simple.Inv (Simple.handleCallNumber s pid cd now).1
    ∧ Simple.Inv (Simple.handleAnnounceWinner s pid wd now).1
    ∧ Simple.Inv (Simple.handleChatMessage s pid chd now).1
    ∧ Simple.Inv (Simple.cleanup s now) :=
  ⟨Simple.inv_joinGame s pid jd now hInv, Simple.inv_onclose s pid now hInv,
   Simple.inv_callNumber s pid cd now hInv, Simple.inv_announceWinner s pid wd now hInv,
   Simple.inv_chatMessage s pid chd now hInv, Simple.inv_cleanup s now hInv⟩

/-- C4 counterexample: the create-room entry point of both servers inserts a
Game Record with an EMPTY roster into the Room Directory.  The new room was
never non-empty, so it is not "within a grace window after its roster became
empty" (part_000 has no grace mechanism at all), and the claimed directory
invariant fails immediately after this operation. -/
theorem claim4_counterexample :
    ¬ Simple.Inv (Simple.createGame ⟨[], []⟩ "g" none 0)
    ∧ (mget (Simple.createGame ⟨[], []⟩ "g" none 0).activeGames "g").map
        (fun g => g.players) = some []
    ∧ (mget (V2.createGame ⟨[], []⟩ "g" {} 0).activeGames "g").map
        (fun g => g.players) = some [] := by
  refine ⟨?_, rfl, rfl⟩
  intro h
  exact h ("g", exGameS [] 0) (List.mem_singleton.mpr rfl) rfl

/-- C4 witness: a state holding one room with one player satisfies the
invariant, and all six part_000 operations preserve it there. -/
theorem claim4_witness :
    Simple.Inv (⟨[("g", exGameS [exPlayerS "p1"] 0)], [("p1", exConnS "p1" "g")]⟩ :
        Simple.ServerState)
    ∧ (Simple.Inv (Simple.handleJoinGame
          ⟨[("g", exGameS [exPlayerS "p1"] 0)], [("p1", exConnS "p1" "g")]⟩ "p2"
          { gameId := "g" } 3).1
      ∧ Simple.Inv (Simple.onclose
          ⟨[("g", exGameS [exPlayerS "p1"] 0)], [("p1", exConnS "p1" "g")]⟩ "p2" 3).1
      ∧ Simple.Inv (Simple.handleCallNumber
          ⟨[("g", exGameS [exPlayerS "p1"] 0)], [("p1", exConnS "p1" "g")]⟩ "p2"
          { gameId := "g", number := 1 } 3).1
      ∧ Simple.Inv (Simple.handleAnnounceWinner
          ⟨[("g", exGameS [exPlayerS "p1"] 0)], [("p1", exConnS "p1" "g")]⟩ "p2"
          { gameId := "g" } 3).1
      ∧ Simple.Inv (Simple.handleChatMessage
          ⟨[("g", exGameS [exPlayerS "p1"] 0)], [("p1", exConnS "p1" "g")]⟩ "p2"
          { gameId := "g", message := "m" } 3).1
      ∧ Simple.Inv (Simple.cleanup
          ⟨[("g", exGameS [exPlayerS "p1"] 0)], [("p1", exConnS "p1" "g")]⟩ 3)) := by
  have hInv : Simple.Inv (⟨[("g", exGameS [exPlayerS "p1"] 0)], [("p1", exConnS "p1" "g")]⟩ :
      Simple.ServerState) := by
    intro q hq
    have he := List.mem_singleton.mp hq
    rw [he]
    decide
  exact ⟨hInv, claim4_amended _ "p2" { gameId := "g" } { gameId := "g", number := 1 }
    { gameId := "g" } { gameId := "g", message := "m" } 3 hInv⟩

end Bingo
